import Mathlib

/-!
Verification of the scba_dash scraper core (app/scraper.py, app/tasks.py,
app/models/scrape_config.py) via a shallow embedding in Lean.

HTTP responses, HTML-parse results (BeautifulSoup queries) and the JSON
parser are modelled as explicit inputs: a response record carries the raw
body text together with the outcome of the structural queries the Python
code performs on it (parsed JSON, presence of a login form, presence of
the home-link button, presence of a logout anchor).  Database effects of
`perform_scrape` are returned as an explicit `RunResult` (records added,
last-scrape write, SocketIO emits, fetcher invocations).  A Python
exception escaping `perform_scrape` is modelled as `Except.error`.
-/

namespace ScbaDash

/-- Python's `pat in s` substring test on lists of characters:
`strPrefix pat s` is true when `pat` is an initial segment of `s`. -/
def strPrefix : List Char → List Char → Bool
  | [], _ => true
  | _ :: _, [] => false
  | a :: as, b :: bs => a == b && strPrefix as bs

/-- Auxiliary scan: does `pat` occur contiguously somewhere in `s`? -/
def hasSubstrList (pat : List Char) : List Char → Bool
  | [] => pat.isEmpty
  | c :: rest => strPrefix pat (c :: rest) || hasSubstrList pat rest

/-- Python `pat in s` on strings (contiguous substring occurrence). -/
def strContains (s pat : String) : Bool :=
  hasSubstrList pat.toList s.toList

/-- Python `s.lower()` (ASCII case folding, which covers every string the
scraper compares; implemented over the character list so that it reduces
definitionally). -/
def strLower (s : String) : String :=
  ⟨s.data.map Char.toLower⟩

/-- Python `s[:n]` (truncation for response previews). -/
def strTake (s : String) (n : Nat) : String :=
  ⟨s.data.take n⟩

/-- Python `s.strip()`. -/
def strTrim (s : String) : String :=
  ⟨((s.data.dropWhile Char.isWhitespace).reverse.dropWhile Char.isWhitespace).reverse⟩

/-- Python `s.startswith(pat)`. -/
def strStartsWith (s pat : String) : Bool :=
  strPrefix pat.data s.data

/-- Python `s.rstrip("/")`. -/
def rstripSlash (s : String) : String :=
  ⟨(s.data.reverse.dropWhile (fun c => c == '/')).reverse⟩

/-- Minimal model of a parsed JSON value (`response.json()` / `json.loads`). -/
inductive PJson where
  | null : PJson
  | jbool : Bool → PJson
  | jnum : Int → PJson
  | jstr : String → PJson
  | jlist : List PJson → PJson

/-- Model of a `requests.Response` as the scraper consumes it.  The fields
`json`, `hasLoginForm` capture the results of `response.json()` (equivalently
`json.loads(response.text)`, which parses the same text) and of the
BeautifulSoup query for a form whose action contains "login". -/
structure HttpResponse where
  statusCode : Nat
  url : String
  text : String
  contentType : Option String := none
  json : Option PJson := none
  hasLoginForm : Bool := false

/-- The structured failure dict built by `PstraxScraper.login`. -/
structure LoginFailure where
  step : Option String := none
  statusCode : Option Nat := none
  message : Option String := none
  url : Option String := none
  responsePreview : Option String := none

/-- `error_details` payload of a persisted error record: either the login
failure dict, a raw response text, or a parsed JSON body. -/
inductive Detail where
  | ofLogin : LoginFailure → Detail
  | ofText : String → Detail
  | ofJson : PJson → Detail

/-- A Scrape Record envelope (the dict stored via `ScrapeData.set_data`).
Optional fields model dict keys that are present only on some paths. -/
structure Envelope where
  scrapedAt : Nat
  url : Option String := none
  status : String
  data : Option PJson := none
  error : Option String := none
  errorDetails : Option Detail := none
  statusCode : Option Nat := none
  responsePreview : Option String := none

/-- URL construction at the top of `PstraxScraper.scrape_data`: use
`target_url` (appending `p=home` when missing) or the default alerts path. -/
def buildAlertsUrl (baseUrl : String) (targetUrl : Option String) : String :=
  match targetUrl with
  | some t =>
      if strContains t "?p=home" then t
      else if strContains t "?" then t ++ "&p=home"
      else t ++ "?p=home"
  | none => rstripSlash baseUrl ++ "/scba/scba-open-alerts-data.php?p=home"

/-- `PstraxScraper.scrape_data` (app/scraper.py lines 282-404): classify the
response of the alerts POST into a success or error envelope.  The POST
itself is the environment; `resp` is its result.  `now` stands for
`datetime.utcnow().isoformat()`. -/
def scrape_data (resp : HttpResponse) (baseUrl : String)
    (targetUrl : Option String) (now : Nat) : Envelope :=
  let alertsUrl := buildAlertsUrl baseUrl targetUrl
  if resp.statusCode ≠ 200 then
    { scrapedAt := now, url := some alertsUrl, status := "error",
      error := some ("Failed to access alerts endpoint. Status: "
        ++ toString resp.statusCode),
      statusCode := some resp.statusCode }
  else
    let lower := strLower resp.text
    if strContains lower "authentication expired" || strContains lower "session expired" then
      { scrapedAt := now, url := some alertsUrl, status := "error",
        error := some "Authentication expired" }
    else if strContains (strLower resp.url) "login" then
      { scrapedAt := now, url := some resp.url, status := "error",
        error := some "Redirected to login page" }
    else
      match resp.json with
      | some j =>
          { scrapedAt := now, url := some alertsUrl, status := "success",
            data := some j }
      | none =>
          if (strStartsWith (strTrim resp.text) "<" || strContains lower "<html")
              && resp.hasLoginForm then
            { scrapedAt := now, url := some alertsUrl, status := "error",
              error := some "Received HTML login page instead of JSON" }
          else
            { scrapedAt := now, url := some alertsUrl, status := "error",
              error := some ("Expected JSON but got non-JSON content. Content-Type: "
                ++ resp.contentType.getD "unknown"),
              responsePreview := some (strTake resp.text 500) }

/-- Result of `PstraxScraper.login`: the (bool, dict) pair as one value. -/
inductive LoginResult where
  | ok : (redirectUrl : String) → (alertsLink : Option String) → LoginResult
  | failed : LoginFailure → LoginResult

/-- The success flag of the (bool, dict) pair returned by `login`. -/
def LoginResult.isSuccess : LoginResult → Bool
  | .ok _ _ => true
  | .failed _ => false

/-- Model of the response to the login POST as `login` inspects it:
raw body text, final URL, status, plus the BeautifulSoup query results
(`soup.find` for a logout-href anchor, for `id=homeLinkButton`, and for a
login form by id or login-containing action). -/
structure LoginPageResponse where
  statusCode : Nat
  url : String
  text : String
  hasLogoutAnchor : Bool := false
  hasHomeLinkButton : Bool := false
  loginFormPresent : Bool := false
  alertsLink : Option String := none

/-- Success classification at the end of `PstraxScraper.login`
(app/scraper.py lines 140-182): compute the textual and structural
indicators and decide success / still-on-login-page / uncertain-proceed.
`has_username` is computed by the source but never consulted, which the
trailing let binding records. -/
def classifyLogin (username : String) (resp : LoginPageResponse) : LoginResult :=
  let respLower := strLower resp.text
  let urlLower := strLower resp.url
  let isNotLoginPage := ! strContains urlLower "login"
  let hasLogoutLink := strContains respLower "logout" || resp.hasLogoutAnchor
  let hasHomeLink := resp.hasHomeLinkButton
  let hasDashboard := strContains respLower "dashboard"
  let _hasUsername := strContains respLower (strLower username)
  if isNotLoginPage || hasLogoutLink || hasHomeLink || hasDashboard then
    .ok resp.url resp.alertsLink
  else if resp.loginFormPresent && strContains urlLower "login" then
    .failed { message := some "Login failed - still on login page",
              statusCode := some resp.statusCode,
              responsePreview := some (strTake resp.text 500) }
  else if resp.statusCode == 200 then
    .ok resp.url resp.alertsLink
  else
    .failed { message := some "Login failed",
              statusCode := some resp.statusCode,
              responsePreview := some (strTake resp.text 500) }

/-- The four weak success signals the spec lists for login classification
(URL without login marker, logout affordance, dashboard or welcome marker,
submitted username in the body), as the claim states them. -/
def specLoginSignal (username : String) (resp : LoginPageResponse) : Bool :=
  (! strContains (strLower resp.url) "login")
  || (strContains (strLower resp.text) "logout" || resp.hasLogoutAnchor)
  || (strContains (strLower resp.text) "dashboard"
      || strContains (strLower resp.text) "welcome")
  || strContains (strLower resp.text) (strLower username)

/-- The `ScrapeConfig` row (app/models/scrape_config.py).  Nullable string
columns are `Option String`; `last_scrape` is an abstract timestamp. -/
structure ScrapeConfigRec where
  pstrax_base_url : Option String := some "https://pstrax.com"
  pstrax_username : Option String := none
  pstrax_password_encrypted : Option String := none
  last_scrape : Option Nat := none
  scrape_interval : Nat := 15

/-- Python truthiness test for an optional string (`not x`). -/
def strFalsy : Option String → Bool
  | none => true
  | some s => s == ""

/-- Python `x or default` for an optional string column. -/
def orDefault (o : Option String) (d : String) : String :=
  match o with
  | none => d
  | some s => if s == "" then d else s

/-- `ScrapeConfig.set_password`: encrypt and store, or store NULL for a
falsy password.  Fernet encryption with the deployment key is the abstract
function `encrypt`. -/
def set_password (cfg : ScrapeConfigRec) (encrypt : String → String)
    (password : Option String) : ScrapeConfigRec :=
  if strFalsy password then
    { cfg with pstrax_password_encrypted := none }
  else
    { cfg with pstrax_password_encrypted := some (encrypt (password.getD "")) }

/-- `ScrapeConfig.get_password`: decrypt the stored ciphertext; `None` when
nothing (or an empty string) is stored.  Fernet decryption with the
deployment key is the abstract `decrypt`, returning `none` where the
Python raises (the `except` clause turns any failure into `None`). -/
def get_password (cfg : ScrapeConfigRec) (decrypt : String → Option String) :
    Option String :=
  match cfg.pstrax_password_encrypted with
  | none => none
  | some e => if e == "" then none else decrypt e

/-- Environment of one `perform_scrape` run: what `scraper.login` returns
and what the alerts-data POST (`getSCBAAlerts`) returns. -/
structure ScrapeEnv where
  loginOutcome : LoginResult
  alertsResponse : HttpResponse

/-- Observable effects of one `perform_scrape` run: Scrape Records added
to the session, the value written to `config.last_scrape` (if any),
`emit_scrape_update` calls, and `getSCBAAlerts` invocations. -/
structure RunResult where
  records : List Envelope := []
  lastScrapeSet : Option Nat := none
  emits : List Envelope := []
  fetchCalls : Nat := 0

/-- `perform_scrape` (app/scraper.py lines 407-513).  Credential guard,
login, alerts fetch, persistence.  `Except.error` models an uncaught
Python exception (the call `scba_alerts.json()` on the login-failure path
is not wrapped in try/except and raises on a non-JSON body, in which case
nothing is committed). -/
def perform_scrape (config : Option ScrapeConfigRec)
    (decrypt : String → Option String) (env : ScrapeEnv) (now : Nat) :
    Except String RunResult :=
  match config with
  | none => .ok {}
  | some cfg =>
    if strFalsy cfg.pstrax_username || strFalsy cfg.pstrax_password_encrypted then
      .ok {}
    else
      match get_password cfg decrypt with
      | none => .ok {}
      | some pw =>
        if pw == "" then .ok {}
        else
          let baseUrl := orDefault cfg.pstrax_base_url "https://pstrax.com"
          match env.loginOutcome with
          | .failed _loginDetail =>
              -- error_data starts as {'error': 'Login failed',
              -- 'error_details': login detail} but both fields are then
              -- overwritten from the getSCBAAlerts response before persisting
              let resp := env.alertsResponse
              if resp.statusCode ≠ 200 then
                let r : Envelope :=
                  { scrapedAt := now, status := "error",
                    error := some "Failed to get SCBA alerts",
                    errorDetails := some (.ofText resp.text) }
                .ok { records := [r], lastScrapeSet := some now, fetchCalls := 1 }
              else
                match resp.json with
                | none => .error "scba_alerts.json() raised: response body is not JSON"
                | some j =>
                  let r : Envelope :=
                    { scrapedAt := now, status := "error",
                      error := some "Successfully got SCBA alerts",
                      errorDetails := some (.ofJson j) }
                  .ok { records := [r], lastScrapeSet := some now, fetchCalls := 1 }
          | .ok _redirectUrl _alertsLink =>
              let resp := env.alertsResponse
              let dataUrl := rstripSlash baseUrl ++ "/scba/scba-open-alerts-data.php"
              let base : Envelope :=
                { scrapedAt := now, url := some dataUrl,
                  status := if resp.statusCode == 200 then "success" else "error" }
              let rec0 : Envelope :=
                if resp.statusCode == 200 then
                  match resp.json with
                  | some j => { base with data := some j }
                  | none =>
                      { base with
                        status := "error"
                        error := some "Failed to parse JSON response"
                        responsePreview := some (strTake resp.text 500) }
                else
                  if strContains (strLower resp.url) "login" then
                    { base with
                      error := some "Authentication expired - redirected to login",
                      statusCode := some resp.statusCode }
                  else
                    { base with
                      error := some ("Failed to fetch SCBA alerts. Status: "
                        ++ toString resp.statusCode),
                      statusCode := some resp.statusCode }
              .ok { records := [rec0], lastScrapeSet := some now,
                    emits := [rec0], fetchCalls := 1 }

/-- A registered APScheduler job (id, display name, interval in minutes). -/
structure Job where
  id : String
  name : String
  intervalMinutes : Nat
deriving DecidableEq

/-- `scheduler.remove_job(jid)`; the caller wraps it in try/except, so a
missing id is simply a no-op. -/
def removeJob (jid : String) (jobs : List Job) : List Job :=
  jobs.filter (fun j => j.id ≠ jid)

/-- `scheduler.add_job(..., replace_existing=True)`: any job with the same
id is replaced by the new one. -/
def addJobReplace (j : Job) (jobs : List Job) : List Job :=
  removeJob j.id jobs ++ [j]

/-- `start_background_tasks` (app/tasks.py lines 62-93): register the
1-minute alert-evaluation job and the scrape job at the configured
interval (default 15 when no config row exists). -/
def start_background_tasks (config : Option ScrapeConfigRec)
    (jobs : List Job) : List Job :=
  let jobs1 := addJobReplace
    { id := "check_alerts", name := "Check alert status", intervalMinutes := 1 } jobs
  let interval := match config with
    | some c => c.scrape_interval
    | none => 15
  addJobReplace
    { id := "scheduled_scrape", name := "Scheduled scraping",
      intervalMinutes := interval } jobs1

/-- `update_scrape_schedule` (app/tasks.py lines 96-122): no-op without a
config row; otherwise remove the scrape job and register a fresh one at
the configured interval. -/
def update_scrape_schedule (config : Option ScrapeConfigRec)
    (jobs : List Job) : List Job :=
  match config with
  | none => jobs
  | some c =>
      addJobReplace
        { id := "scheduled_scrape", name := "Scheduled scraping",
          intervalMinutes := c.scrape_interval }
        (removeJob "scheduled_scrape" jobs)

/-- The `Alert` row as `check_alerts` reads and writes it (app/models/alert.py):
optional start, mandatory end, active flag, creation time.  Timestamps are
abstract integers. -/
structure Alert where
  id : Nat
  start_time : Option Int := none
  end_time : Int
  is_active : Bool := false
  created_at : Int

/-- The activity formula of `check_alerts`: effective start (defaulting to
`created_at`) ≤ now ≤ end. -/
def alertShouldBeActive (now : Int) (a : Alert) : Bool :=
  let st := a.start_time.getD a.created_at
  decide (st ≤ now ∧ now ≤ a.end_time)

/-- One loop iteration of `check_alerts`: update the flag and report
whether it flipped (a flip commits and emits one `alert_update`). -/
def checkAlertsStep (now : Int) (a : Alert) : Alert × Nat :=
  let newActive := alertShouldBeActive now a
  ({ a with is_active := newActive }, if newActive != a.is_active then 1 else 0)

/-- `check_alerts` (app/tasks.py lines 17-47): recompute every alert's
active flag at wall-clock `now`; the second component counts the
`emit_alert_update` publish events (one per flipped flag). -/
def check_alerts (now : Int) : List Alert → List Alert × Nat
  | [] => ([], 0)
  | a :: rest =>
      let step := checkAlertsStep now a
      let tail := check_alerts now rest
      (step.1 :: tail.1, step.2 + tail.2)

section Theorems

/-- One `check_alerts` iteration leaves the activity formula unchanged:
the flag is the only field written, and the formula does not read it. -/
theorem checkAlertsStep_shouldBe (now : Int) (a : Alert) :
    alertShouldBeActive now (checkAlertsStep now a).1 = alertShouldBeActive now a := by
  cases a
  rfl

/-- Re-running one `check_alerts` iteration on its own output changes
nothing and reports no flip. -/
theorem checkAlertsStep_idem (now : Int) (a : Alert) :
    checkAlertsStep now (checkAlertsStep now a).1 = ((checkAlertsStep now a).1, 0) := by
  cases a
  simp [checkAlertsStep, alertShouldBeActive]

/-- The flag written by one `check_alerts` iteration is the activity formula. -/
theorem checkAlertsStep_fst_is_active (now : Int) (a : Alert) :
    (checkAlertsStep now a).1.is_active = alertShouldBeActive now a := by
  cases a
  rfl

/-- C9: running `check_alerts` twice at the same wall-clock time is
idempotent: the first run sets each alert's active flag to the formula
(effective start ≤ now ≤ end, with the start defaulting to the creation
time), and the second run returns the same alerts with zero publish events. -/
theorem c9_check_alerts_idempotent (now : Int) (alerts : List Alert) :
    (check_alerts now alerts).1.map (fun a => a.is_active)
        = alerts.map (fun a => alertShouldBeActive now a)
    ∧ check_alerts now (check_alerts now alerts).1 = ((check_alerts now alerts).1, 0) := by
  induction alerts with
  | nil => exact ⟨rfl, rfl⟩
  | cons a rest ih =>
      refine ⟨?_, ?_⟩
      · simp [check_alerts, checkAlertsStep_fst_is_active, ih.1]
      · simp [check_alerts, checkAlertsStep_idem, ih.2]

/-- C8: with one alert-evaluation job and one scrape job registered,
`update_scrape_schedule` with a configured interval yields exactly the
alert job (unmodified) followed by a single scrape job at the new interval. -/
theorem c8_reschedule (alertJob scrapeJob : Job) (c : ScrapeConfigRec)
    (hA : alertJob.id = "check_alerts") (hS : scrapeJob.id = "scheduled_scrape") :
    update_scrape_schedule (some c) [alertJob, scrapeJob]
      = [alertJob,
         { id := "scheduled_scrape", name := "Scheduled scraping",
           intervalMinutes := c.scrape_interval }]
    ∧ ((update_scrape_schedule (some c) [alertJob, scrapeJob]).filter
        (fun j => j.id == "scheduled_scrape"))
      = [{ id := "scheduled_scrape", name := "Scheduled scraping",
           intervalMinutes := c.scrape_interval }]
    ∧ ((update_scrape_schedule (some c) [alertJob, scrapeJob]).filter
        (fun j => j.id == "check_alerts")) = [alertJob] := by
  simp [update_scrape_schedule, addJobReplace, removeJob, List.filter, hA, hS]

/-- Concrete instance of `c8_reschedule`: interval changed from 15 to 5. -/
theorem c8_reschedule_witness :
    update_scrape_schedule
        (some { scrape_interval := 5 })
        [{ id := "check_alerts", name := "Check alert status", intervalMinutes := 1 },
         { id := "scheduled_scrape", name := "Scheduled scraping", intervalMinutes := 15 }]
      = [{ id := "check_alerts", name := "Check alert status", intervalMinutes := 1 },
         { id := "scheduled_scrape", name := "Scheduled scraping", intervalMinutes := 5 }] :=
  (c8_reschedule
    { id := "check_alerts", name := "Check alert status", intervalMinutes := 1 }
    { id := "scheduled_scrape", name := "Scheduled scraping", intervalMinutes := 15 }
    { scrape_interval := 5 } rfl rfl).1

/-- A login POST response that is still the login page: the body is the
login form itself (so BeautifulSoup's query for the `loginForm` form
succeeds, realizing `loginFormPresent := true`), and it contains the
submitted username "alice" because the site prefills the username field's
value.  None of the indicators the code consults holds: no logout text or
anchor, no homeLinkButton, no dashboard marker, and the final URL still
contains "login". -/
def c2Resp : LoginPageResponse :=
  { statusCode := 200, url := "https://pstrax.com/login.php",
    text := "<html><body><form id=\"loginForm\" action=\"/login.php\" method=\"post\"><input id=\"txtuser_name\" name=\"txtuser_name\" value=\"alice\" /><input id=\"txtpassword\" type=\"password\" name=\"txtpassword\" /><input name=\"_token\" id=\"csrf_token\" value=\"abc123\" /></form></body></html>",
    loginFormPresent := true }

set_option maxRecDepth 100000 in
/-- C2 counterexample: the spec's fourth weak signal (body contains the
submitted username) holds for this response, yet `login` classifies it as
a failure — the `has_username` indicator is computed but never consulted. -/
theorem c2_counterexample :
    specLoginSignal "alice" c2Resp = true
    ∧ (classifyLogin "alice" c2Resp).isSuccess = false := by
  constructor
  · decide
  · decide

/-- C2 amended: the disjunction of the four signals the code actually
consults — URL without a login marker, logout text or anchor, the
home-link button, or a dashboard marker — implies success=true.  (The
username signal and a "welcome" marker are not consulted.) -/
theorem c2_used_signals_imply_success (username : String) (resp : LoginPageResponse)
    (h : (!strContains (strLower resp.url) "login"
          || (strContains (strLower resp.text) "logout" || resp.hasLogoutAnchor)
          || resp.hasHomeLinkButton
          || strContains (strLower resp.text) "dashboard") = true) :
    (classifyLogin username resp).isSuccess = true := by
  simp only [classifyLogin]
  rw [h]
  rfl

/-- Concrete instance of `c2_used_signals_imply_success`: a dashboard page. -/
theorem c2_used_signals_imply_success_witness :
    (classifyLogin "alice"
      { statusCode := 200, url := "https://pstrax.com/login.php",
        text := "Your dashboard is ready" }).isSuccess = true :=
  c2_used_signals_imply_success "alice"
    { statusCode := 200, url := "https://pstrax.com/login.php",
      text := "Your dashboard is ready" }
    (by decide)

/-- An alerts-data response with HTTP status 500 whose body carries the
session-expired marker. -/
def c4Resp : HttpResponse :=
  { statusCode := 500,
    url := "https://app1.pstrax.com/scba/scba-open-alerts-data.php?p=home",
    text := "Session Expired" }

/-- C4 counterexample: on a non-200 response whose body says
"Session Expired", `scrape_data` returns the generic status-code reason —
the HTTP-status check precedes the session-expired check, so the reason
does not mention expiry for this status code. -/
theorem c4_counterexample :
    strContains (strLower c4Resp.text) "session expired" = true
    ∧ (scrape_data c4Resp "https://pstrax.com" none 7).status = "error"
    ∧ (scrape_data c4Resp "https://pstrax.com" none 7).error
        = some "Failed to access alerts endpoint. Status: 500"
    ∧ strContains (strLower "Failed to access alerts endpoint. Status: 500")
        "expir" = false := by
  refine ⟨by decide, rfl, rfl, by decide⟩

/-- C4 amended: for responses with HTTP status 200 whose body contains
"session expired" (case-insensitively), `scrape_data` returns an error
envelope whose reason is "Authentication expired"; non-200 responses still
yield an error envelope, but with the status-code reason. -/
theorem c4_session_expired_on_200 (resp : HttpResponse) (baseUrl : String)
    (targetUrl : Option String) (now : Nat)
    (h200 : resp.statusCode = 200)
    (hses : strContains (strLower resp.text) "session expired" = true) :
    (scrape_data resp baseUrl targetUrl now).status = "error"
    ∧ (scrape_data resp baseUrl targetUrl now).error = some "Authentication expired" := by
  simp [scrape_data, h200, hses]

/-- A 200 alerts-data response carrying the session-expired marker. -/
def c4OkResp : HttpResponse :=
  { statusCode := 200, url := "https://app1.pstrax.com/x",
    text := "Your session expired, please log in" }

/-- Concrete instance of `c4_session_expired_on_200`. -/
theorem c4_session_expired_on_200_witness :
    (scrape_data c4OkResp "https://pstrax.com" none 7).status = "error"
    ∧ (scrape_data c4OkResp "https://pstrax.com" none 7).error
        = some "Authentication expired" :=
  c4_session_expired_on_200 c4OkResp "https://pstrax.com" none 7 rfl (by decide)

/-- C5: a 200 response parsing as JSON — with no expiry marker in the body
and no login marker in the final URL — yields a success envelope carrying
the parsed payload; the declared Content-Type (a field of `resp` that
`scrape_data` never reads on this path) is irrelevant. -/
theorem c5_json_success_ignores_content_type (resp : HttpResponse)
    (baseUrl : String) (targetUrl : Option String) (now : Nat) (j : PJson)
    (h200 : resp.statusCode = 200)
    (hjson : resp.json = some j)
    (hs1 : strContains (strLower resp.text) "session expired" = false)
    (hs2 : strContains (strLower resp.text) "authentication expired" = false)
    (hurl : strContains (strLower resp.url) "login" = false) :
    scrape_data resp baseUrl targetUrl now
      = { scrapedAt := now, url := some (buildAlertsUrl baseUrl targetUrl),
          status := "success", data := some j } := by
  simp [scrape_data, h200, hjson, hs1, hs2, hurl]

/-- Concrete instance of `c5_json_success_ignores_content_type`: declared
Content-Type is text/html, body parses as the JSON list []. -/
theorem c5_json_success_witness :
    scrape_data
        { statusCode := 200, url := "https://app1.pstrax.com/data",
          text := "[]", contentType := some "text/html; charset=UTF-8",
          json := some (.jlist []) }
        "https://pstrax.com" none 7
      = { scrapedAt := 7,
          url := some (buildAlertsUrl "https://pstrax.com" none),
          status := "success", data := some (.jlist []) } :=
  c5_json_success_ignores_content_type
    { statusCode := 200, url := "https://app1.pstrax.com/data",
      text := "[]", contentType := some "text/html; charset=UTF-8",
      json := some (.jlist []) }
    "https://pstrax.com" none 7 (.jlist []) rfl rfl (by decide) (by decide) (by decide)

/-- C6: with no config row, a falsy username, or an undecryptable stored
password, `perform_scrape` is a silent no-op: it returns normally (`.ok`,
no surfaced error) with the empty `RunResult` — no Scrape Record, no
last-scrape write, no emit, no fetcher call. -/
theorem c6_missing_credentials_noop (config : Option ScrapeConfigRec)
    (decrypt : String → Option String) (env : ScrapeEnv) (now : Nat)
    (h : config = none
       ∨ ∃ cfg, config = some cfg
          ∧ (strFalsy cfg.pstrax_username = true
             ∨ get_password cfg decrypt = none)) :
    perform_scrape config decrypt env now
      = .ok { records := [], lastScrapeSet := none, emits := [], fetchCalls := 0 } := by
  rcases h with rfl | ⟨cfg, rfl, hu | hp⟩
  · rfl
  · simp [perform_scrape, hu]
  · by_cases he : strFalsy cfg.pstrax_password_encrypted = true
    · simp [perform_scrape, he]
    · simp [perform_scrape, he, hp]

/-- Concrete instance of `c6_missing_credentials_noop`: a config row whose
stored ciphertext the key cannot decrypt. -/
theorem c6_missing_credentials_noop_witness :
    perform_scrape
        (some { pstrax_username := some "alice",
                pstrax_password_encrypted := some "garbage" })
        (fun _ => none)
        { loginOutcome := .failed {},
          alertsResponse := { statusCode := 200, url := "u", text := "t" } } 3
      = .ok { records := [], lastScrapeSet := none, emits := [], fetchCalls := 0 } :=
  c6_missing_credentials_noop
    (some { pstrax_username := some "alice",
            pstrax_password_encrypted := some "garbage" })
    (fun _ => none)
    { loginOutcome := .failed {},
      alertsResponse := { statusCode := 200, url := "u", text := "t" } } 3
    (Or.inr ⟨_, rfl, Or.inr rfl⟩)

/-- C10: password storage round-trip in `ScrapeConfig`.  Fernet with the
deployment key is an abstract cipher pair (`encrypt`, `decrypt`); Fernet's
contract (decryption inverts encryption, tokens are non-empty) enters as
pointwise hypotheses.  Part 1: a non-empty password survives
`set_password` then `get_password`.  Parts 2-3: a `None` or empty password
is stored as NULL and read back as `None`.  Part 4: `get_password` returns
`None` (rather than raising) whenever decryption of the stored ciphertext
fails. -/
theorem c10_password_roundtrip :
    (∀ (cfg : ScrapeConfigRec) (encrypt : String → String)
        (decrypt : String → Option String) (p : String),
        p ≠ "" → encrypt p ≠ "" → decrypt (encrypt p) = some p →
        get_password (set_password cfg encrypt (some p)) decrypt = some p)
    ∧ (∀ (cfg : ScrapeConfigRec) (encrypt : String → String)
        (decrypt : String → Option String),
        get_password (set_password cfg encrypt none) decrypt = none)
    ∧ (∀ (cfg : ScrapeConfigRec) (encrypt : String → String)
        (decrypt : String → Option String),
        get_password (set_password cfg encrypt (some "")) decrypt = none)
    ∧ (∀ (cfg : ScrapeConfigRec) (decrypt : String → Option String) (e : String),
        cfg.pstrax_password_encrypted = some e → decrypt e = none →
        get_password cfg decrypt = none) := by
  refine ⟨?_, ?_, ?_, ?_⟩
  · intro cfg encrypt decrypt p hp henc hdec
    have hfal : strFalsy (some p) = false := by
      simp [strFalsy]
      exact hp
    simp [set_password, get_password, hfal, henc, hdec]
  · intro cfg encrypt decrypt
    simp [set_password, get_password, strFalsy]
  · intro cfg encrypt decrypt
    simp [set_password, get_password, strFalsy]
  · intro cfg decrypt e he hdec
    by_cases hz : e = ""
    · simp [get_password, he, hz]
    · simp [get_password, he, hz, hdec]

/-- Concrete instance of `c10_password_roundtrip` (part 1) with an
invertible cipher. -/
theorem c10_password_roundtrip_witness :
    get_password
        (set_password {} (fun s => s ++ "X") (some "secret"))
        (fun _ => some "secret")
      = some "secret" :=
  c10_password_roundtrip.1 {} (fun s => s ++ "X") (fun _ => some "secret")
    "secret" (by decide) (by decide) rfl

/-- A configured credential row (username present, decryptable password). -/
def cfgAlice : ScrapeConfigRec :=
  { pstrax_username := some "alice",
    pstrax_password_encrypted := some "gAAAAAciphertext" }

/-- A run environment in which login fails and the alerts-data POST
answers 200 with the JSON body `[]`. -/
def envLoginFailedAlerts200 : ScrapeEnv :=
  { loginOutcome := .failed
      { step := some "submitting_login",
        statusCode := some 200,
        message := some "Login failed - still on login page" },
    alertsResponse :=
      { statusCode := 200,
        url := "https://app1.pstrax.com/scba/scba-open-alerts-data.php",
        text := "[]", json := some (.jlist []) } }

/-- C1: evaluation of `perform_scrape` on a login failure.  The code calls
`getSCBAAlerts` once (fetchCalls = 1) even though login failed, and the
persisted record's error/error_details fields are overwritten with the
alerts outcome ("Successfully got SCBA alerts" and the alerts JSON) in
place of the login failure detail, while status stays "error". -/
theorem c1_login_failure_path_eval :
    perform_scrape (some cfgAlice) (fun _ => some "secret")
        envLoginFailedAlerts200 42
      = .ok { records := [{ scrapedAt := 42, status := "error",
                            error := some "Successfully got SCBA alerts",
                            errorDetails := some (.ofJson (.jlist [])) }],
              lastScrapeSet := some 42, emits := [], fetchCalls := 1 } := rfl

/-- A run environment in which login fails and the alerts-data POST
answers 500. -/
def envLoginFailedAlerts500 : ScrapeEnv :=
  { loginOutcome := .failed
      { message := some "Login failed - still on login page" },
    alertsResponse :=
      { statusCode := 500,
        url := "https://app1.pstrax.com/scba/scba-open-alerts-data.php",
        text := "Server Error" } }

/-- C3 counterexample: a run that persists a Scrape Record (the
login-failure error record) and updates last_scrape, yet publishes no
notification — the login-failure path returns before
`emit_scrape_update`, so `emits` is empty while `records` is not. -/
theorem c3_counterexample :
    perform_scrape (some cfgAlice) (fun _ => some "secret")
        envLoginFailedAlerts500 42
      = .ok { records := [{ scrapedAt := 42, status := "error",
                            error := some "Failed to get SCBA alerts",
                            errorDetails := some (.ofText "Server Error") }],
              lastScrapeSet := some 42, emits := [], fetchCalls := 1 } := rfl

/-- C3 amended: whenever a `perform_scrape` run persists a Scrape Record,
it updates the credential row's last-scrape timestamp in the same run;
the notification to subscribers, however, is published exactly when the
run's login succeeded — the login-failure persistence path emits nothing. -/
theorem c3_persist_updates_timestamp_emits_iff_login
    (config : Option ScrapeConfigRec) (decrypt : String → Option String)
    (env : ScrapeEnv) (now : Nat) (r : RunResult)
    (h : perform_scrape config decrypt env now = .ok r)
    (hr : r.records ≠ []) :
    r.lastScrapeSet = some now
    ∧ (r.emits ≠ [] ↔ env.loginOutcome.isSuccess = true) := by
  obtain ⟨lo, aresp⟩ := env
  rcases config with _ | cfg
  · simp only [perform_scrape] at h
    cases h
    exact absurd rfl hr
  · rcases lo with ⟨ru, al⟩ | d
    · simp only [perform_scrape] at h
      split at h
      · cases h
        exact absurd rfl hr
      · split at h
        · cases h
          exact absurd rfl hr
        · split at h
          · cases h
            exact absurd rfl hr
          · cases h
            refine ⟨rfl, ?_⟩
            simp [LoginResult.isSuccess]
    · simp only [perform_scrape] at h
      split at h
      · cases h
        exact absurd rfl hr
      · split at h
        · cases h
          exact absurd rfl hr
        · split at h
          · cases h
            exact absurd rfl hr
          · split at h
            · cases h
              refine ⟨rfl, ?_⟩
              simp [LoginResult.isSuccess]
            · split at h
              · exact (Except.noConfusion h)
              · cases h
                refine ⟨rfl, ?_⟩
                simp [LoginResult.isSuccess]

/-- A run environment in which login succeeds and the alerts-data POST
answers 200 with the JSON body `[]`. -/
def envLoginOkAlerts200 : ScrapeEnv :=
  { loginOutcome := .ok "https://app1.pstrax.com/home" none,
    alertsResponse :=
      { statusCode := 200,
        url := "https://app1.pstrax.com/scba/scba-open-alerts-data.php",
        text := "[]", json := some (.jlist []) } }

/-- The `RunResult` of `perform_scrape` on `cfgAlice` and
`envLoginOkAlerts200`. -/
def runLoginOkAlerts200 : RunResult :=
  { records := [{ scrapedAt := 42,
                  url := some "https://pstrax.com/scba/scba-open-alerts-data.php",
                  status := "success", data := some (.jlist []) }],
    lastScrapeSet := some 42,
    emits := [{ scrapedAt := 42,
                url := some "https://pstrax.com/scba/scba-open-alerts-data.php",
                status := "success", data := some (.jlist []) }],
    fetchCalls := 1 }

/-- Concrete instance of `c3_persist_updates_timestamp_emits_iff_login`
on a successful run. -/
theorem c3_persist_updates_timestamp_emits_iff_login_witness :
    runLoginOkAlerts200.lastScrapeSet = some 42
    ∧ (runLoginOkAlerts200.emits ≠ []
        ↔ envLoginOkAlerts200.loginOutcome.isSuccess = true) :=
  c3_persist_updates_timestamp_emits_iff_login (some cfgAlice)
    (fun _ => some "secret") envLoginOkAlerts200 42 runLoginOkAlerts200
    rfl (by simp [runLoginOkAlerts200])

/-- C7's invariant for one envelope: the data payload is present exactly
on success, and an error envelope carries an error description. -/
def dataIffSuccess (e : Envelope) : Prop :=
  (e.data.isSome = true ↔ e.status = "success")
  ∧ (e.status = "error" → e.error.isSome = true)

/-- C7: every envelope the core produces — by `scrape_data` and by
`perform_scrape` on both the login-failure and post-login paths — has a
data payload iff its status is "success", and error envelopes carry an
error description. -/
theorem c7_data_iff_success :
    (∀ (resp : HttpResponse) (baseUrl : String) (targetUrl : Option String)
        (now : Nat), dataIffSuccess (scrape_data resp baseUrl targetUrl now))
    ∧ (∀ (config : Option ScrapeConfigRec) (decrypt : String → Option String)
        (env : ScrapeEnv) (now : Nat) (r : RunResult),
        perform_scrape config decrypt env now = .ok r →
        ∀ e ∈ r.records, dataIffSuccess e) := by
  constructor
  · intro resp baseUrl targetUrl now
    by_cases h1 : resp.statusCode = 200
    · by_cases h2 : (strContains (strLower resp.text) "authentication expired"
          || strContains (strLower resp.text) "session expired") = true
      · simp [scrape_data, dataIffSuccess, h1, h2]
      · by_cases h3 : strContains (strLower resp.url) "login" = true
        · simp [scrape_data, dataIffSuccess, h1, h2, h3]
        · rcases hj : resp.json with _ | j
          · by_cases h4 : ((strStartsWith (strTrim resp.text) "<"
                || strContains (strLower resp.text) "<html")
                && resp.hasLoginForm) = true
            · simp [scrape_data, dataIffSuccess, h1, h2, h3, hj, h4]
            · simp [scrape_data, dataIffSuccess, h1, h2, h3, hj, h4]
          · simp [scrape_data, dataIffSuccess, h1, h2, h3, hj]
    · simp [scrape_data, dataIffSuccess, h1]
  · intro config decrypt env now r h e he
    obtain ⟨lo, aresp⟩ := env
    rcases config with _ | cfg
    · simp only [perform_scrape] at h
      cases h
      simp at he
    · rcases lo with ⟨ru, al⟩ | d
      · simp only [perform_scrape] at h
        split at h
        · cases h
          simp at he
        · split at h
          · cases h
            simp at he
          · split at h
            · cases h
              simp at he
            · cases h
              rw [List.mem_singleton] at he
              subst he
              by_cases h200 : (aresp.statusCode == 200) = true
              · rcases hj : aresp.json with _ | j
                · simp [dataIffSuccess, h200, hj]
                · simp [dataIffSuccess, h200, hj]
              · by_cases hlog : strContains (strLower aresp.url) "login" = true
                · simp [dataIffSuccess, h200, hlog]
                · simp [dataIffSuccess, h200, hlog]
      · simp only [perform_scrape] at h
        split at h
        · cases h
          simp at he
        · split at h
          · cases h
            simp at he
          · split at h
            · cases h
              simp at he
            · split at h
              · cases h
                rw [List.mem_singleton] at he
                subst he
                simp [dataIffSuccess]
              · split at h
                · exact (Except.noConfusion h)
                · cases h
                  rw [List.mem_singleton] at he
                  subst he
                  simp [dataIffSuccess]

/-- A 200 alerts-data response whose body is the JSON list `[]`. -/
def c7Resp : HttpResponse :=
  { statusCode := 200, url := "https://app1.pstrax.com/data",
    text := "[]", json := some (.jlist []) }

/-- The success record persisted by the run of `runLoginOkAlerts200`. -/
def c7Rec : Envelope :=
  { scrapedAt := 42,
    url := some "https://pstrax.com/scba/scba-open-alerts-data.php",
    status := "success", data := some (.jlist []) }

/-- Concrete instance of `c7_data_iff_success`: the success envelope of a
200 JSON response and the persisted record of a successful run. -/
theorem c7_data_iff_success_witness :
    dataIffSuccess (scrape_data c7Resp "https://pstrax.com" none 7)
    ∧ dataIffSuccess c7Rec :=
  ⟨c7_data_iff_success.1 c7Resp "https://pstrax.com" none 7,
   c7_data_iff_success.2 (some cfgAlice) (fun _ => some "secret")
    envLoginOkAlerts200 42 runLoginOkAlerts200 rfl c7Rec
    (by simp [runLoginOkAlerts200, c7Rec])⟩

end Theorems

end ScbaDash
